import Mathlib

/-!
Verification development for the transcription-pipeline-manager repository.

The definitions below are a shallow embedding of the Python sources:

* `constants.py` — timing constants and the state-name constants of the
  cycle state machine.
* `manager.py` — the per-phase handlers, the gateway-call helpers
  (`_check_pod_idle_status`, `_trigger_pipeline_run`,
  `_process_trigger_pipeline_run_response`, `_update_pod_counts`) and a
  single iteration (`tick`) of the main loop in
  `TranscriptionPipelineManager.run`.
* `rest_interface.py` — the `Stats` store, the API-key gate
  (`_check_api_key`) and the route table (`_register_routes`).

Outbound HTTP calls and the RunPod singleton-manager calls are modelled by
explicit outcome datatypes (`HttpOutcome`, `PodStartResult`,
`CountPodsResult`); Python exceptions that the source catches are explicit
constructors of those datatypes, and the wall clock is an explicit `ℚ`
parameter (`time.time()` returns a float; `int(time.time())` is a separate
`ℤ` parameter).
-/

namespace TranscriptionPipelineManager

/-! ## Constants (constants.py) -/

def CYCLE_DURATION : ℚ := 3600

def STATUS_CHECK_TIMEOUT : ℚ := 300

def COUNT_UPDATE_INTERVAL : ℚ := 60

def MAIN_LOOP_SLEEP : ℚ := 1

def POD_STATUS_CHECK_INTERVAL : ℚ := 5

def STATE_STARTING_CYCLE : String := "STARTING_CYCLE"

def STATE_ATTEMPTING_POD_START : String := "ATTEMPTING_POD_START"

def STATE_WAITING_FOR_IDLE : String := "WAITING_FOR_IDLE"

def STATE_ATTEMPTING_PIPELINE_RUN : String := "ATTEMPTING_PIPELINE_RUN"

def STATE_UPDATING_COUNTS : String := "UPDATING_COUNTS"

def STATE_WAITING_AFTER_FAILURE : String := "WAITING_AFTER_FAILURE"

def VALID_STATES : List String :=
  [STATE_STARTING_CYCLE,
   STATE_ATTEMPTING_POD_START,
   STATE_WAITING_FOR_IDLE,
   STATE_ATTEMPTING_PIPELINE_RUN,
   STATE_UPDATING_COUNTS,
   STATE_WAITING_AFTER_FAILURE]

/-- POD_URL_TEMPLATE % pod_id from constants.py / manager.py. -/
def POD_URL_TEMPLATE (podId : String) : String :=
  "https://" ++ podId ++ "-8080.proxy.runpod.net"

/-! ## Model of HTTP call outcomes -/

/-- A JSON value as far as the sources inspect one: the handlers only ever
compare a value against the string literal "idle", so every non-string value
is collapsed into `other`. -/
inductive JVal where
  | str (s : String)
  | other
deriving DecidableEq

/-- Result of calling `response.json()`: the body failed to parse, parsed to
a non-dict value, or parsed to a dict (modelled as an association list). -/
inductive JsonBody where
  | parseError
  | nonDict
  | dict (kvs : List (String × JVal))
deriving DecidableEq

/-- Outcome of a `requests.get`/`requests.post` call: a transport-level
exception (`RequestException`), or a response carrying a status code and a
body. -/
inductive HttpOutcome where
  | networkError
  | response (status : Nat) (body : JsonBody)
deriving DecidableEq

/-- `response.raise_for_status()` raises `HTTPError` exactly for status
codes in 400–599. -/
def raisesForStatus (status : Nat) : Bool :=
  decide (400 ≤ status ∧ status < 600)

/-! ## Stats store (rest_interface.py, class Stats) -/

/-- The `Stats` class of rest_interface.py: it holds exactly the two fields
`pods_count` and `pipeline_last_run_time`, both initialised to 0.  The lock
only guards each single-field access and is not modelled. -/
structure Stats where
  pods_count : Int := 0
  pipeline_last_run_time : Int := 0
deriving DecidableEq

def Stats.get_pods_count (st : Stats) : Int :=
  st.pods_count

def Stats.set_pods_count (st : Stats) (count : Int) : Stats :=
  { st with pods_count := count }

def Stats.get_pipeline_last_run_time (st : Stats) : Int :=
  st.pipeline_last_run_time

def Stats.set_pipeline_last_run_time (st : Stats) (timestamp : Int) : Stats :=
  { st with pipeline_last_run_time := timestamp }

/-- The method names the `Stats` class of rest_interface.py actually
defines (besides `__init__`). -/
def statsMethodNames : List String :=
  ["get_pods_count", "set_pods_count",
   "get_pipeline_last_run_time", "set_pipeline_last_run_time"]

/-! ## Gateway-call helpers (manager.py) -/

/-- Embeds `_check_pod_idle_status`: a transport exception or an HTTP error
status or an unparseable or non-dict body or a non-"idle" status value all
yield `false`; only a non-error response whose dict body maps "status" to
the string "idle" yields `true`.  Every branch of the source returns a
bool; no outcome raises to the caller. -/
def checkPodIdleStatus : HttpOutcome → Bool
  | .networkError => false
  | .response status body =>
    if raisesForStatus status then false
    else
      match body with
      | .parseError => false
      | .nonDict => false
      | .dict kvs => List.lookup "status" kvs == some (JVal.str "idle")

/-- Embeds `_process_trigger_pipeline_run_response`: on a dict body with a
"message" key it updates the stats store's last-run timestamp to
`int(time.time())` (the `now` argument) and returns `True`; a body with an
"error" key, an unexpected dict shape, a parse failure, or a non-dict body
(where the membership test or the subsequent indexing raises and is caught)
all return `False` without touching the stats. -/
def processTriggerPipelineRunResponse (body : JsonBody) (now : Int) (st : Stats) :
    Bool × Stats :=
  match body with
  | .parseError => (false, st)
  | .nonDict => (false, st)
  | .dict kvs =>
    if (List.lookup "message" kvs).isSome then
      (true, st.set_pipeline_last_run_time now)
    else if (List.lookup "error" kvs).isSome then
      (false, st)
    else
      (false, st)

/-- Embeds `_trigger_pipeline_run`: a transport exception or an HTTP error
status (caught from `raise_for_status`) yields `False`; otherwise the
response is processed by `processTriggerPipelineRunResponse`. -/
def triggerPipelineRun (o : HttpOutcome) (now : Int) (st : Stats) : Bool × Stats :=
  match o with
  | .networkError => (false, st)
  | .response status body =>
    if raisesForStatus status then (false, st)
    else processTriggerPipelineRunResponse body now st

/-- Result of `self.runpod_start_manager.run()` in
`_handle_attempting_pod_start`: the call raised, or it returned a value —
`none` models a falsy return (None/False), `some podId` a truthy pod id. -/
inductive PodStartResult where
  | raised
  | returned (value : Option String)
deriving DecidableEq

/-- Result of `self.runpod_start_manager.count_pods()` in
`_update_pod_counts`: the call raised, or returned a value — `none` models
any result that is not a dict containing both the "total" and "running"
keys, `some (total, running)` a well-formed counts dict. -/
inductive CountPodsResult where
  | raised
  | returned (counts : Option (Int × Int))
deriving DecidableEq

/-- Embeds `_update_pod_counts`' boolean outcome: `True` only for a valid
counts dict (after which manager.py publishes both values to the REST
interface), `False` for an invalid shape or a raised exception.  (In the
rest_interface.py revision in this repository the publishing methods
`update_pods_total`/`update_pods_running` do not exist — see the C5/C6
results — so at runtime the publish step itself would raise and be caught;
this function models manager.py's own control flow.) -/
def updatePodCounts : CountPodsResult → Bool
  | .raised => false
  | .returned none => false
  | .returned (some _) => true

/-! ## API-key gate (rest_interface.py, _check_api_key) -/

/-- Python truthiness of an optional string: None and the empty string are
falsy. -/
def pyTruthy : Option String → Bool
  | none => false
  | some s => s ≠ ""

/-- The JSON body and status code of a 403 response produced by
`_check_api_key`. -/
structure ForbiddenResponse where
  error : String
  message : String
  status : Nat
deriving DecidableEq

/-- Embeds `_check_api_key`: when the configured key is truthy, a falsy
provided key (missing parameter or empty value) yields 403 "API key
required", a different provided key yields 403 "Invalid API key", and the
matching key passes; when no truthy key is configured every request
passes (`none` means the request is allowed through). -/
def checkApiKey (apiKey : Option String) (provided : Option String) :
    Option ForbiddenResponse :=
  if pyTruthy apiKey then
    if ¬ pyTruthy provided then
      some ⟨"Forbidden", "API key required", 403⟩
    else if provided ≠ apiKey then
      some ⟨"Forbidden", "Invalid API key", 403⟩
    else
      none
  else
    none

/-! ## Route table (rest_interface.py, _register_routes) -/

structure Route where
  rule : String
  endpoint : String
  method : String
deriving DecidableEq

/-- The three `add_url_rule` calls of `_register_routes`. -/
def registeredRoutes : List Route :=
  [⟨"/stats/pods-count", "get_pods_count", "GET"⟩,
   ⟨"/stats/pipeline-last-run-time", "get_pipeline_last_run_time", "GET"⟩,
   ⟨"/logs", "handle_logs", "POST"⟩]

/-- Embeds `get_pods_count_handler`'s success path: the JSON body (as a
key/value list) and the status code. -/
def getPodsCountHandler (st : Stats) : List (String × Int) × Nat :=
  ([("pods_count", st.get_pods_count)], 200)

/-- Embeds `get_last_run_time_handler`'s success path. -/
def getLastRunTimeHandler (st : Stats) : List (String × Int) × Nat :=
  ([("pipeline_last_run_time", st.get_pipeline_last_run_time)], 200)

/-! ## Per-phase handlers (manager.py) -/

/-- The six per-tick loop variables of `TranscriptionPipelineManager.run`:
`current_state`, `cycle_start_time`, `pod_id`, `pod_url`,
`last_count_update_time`, `last_idle_check_time`. -/
structure LoopState where
  currentState : String
  cycleStartTime : ℚ
  podId : String
  podUrl : String
  lastCountUpdateTime : ℚ
  lastIdleCheckTime : ℚ
deriving DecidableEq

/-- Embeds `_handle_starting_cycle`: the returned tuple resets the cycle
start time to `now` and clears the pod reference and interval timestamps,
moving to ATTEMPTING_POD_START. -/
def handleStartingCycle (now : ℚ) : LoopState :=
  ⟨STATE_ATTEMPTING_POD_START, now, "", "", 0, 0⟩

/-- Return of `_handle_attempting_pod_start` plus the number of
`_terminate_pods` invocations the call performed. -/
structure PodStartStep where
  nextState : String
  podId : String
  podUrl : String
  terminateCalls : Nat
deriving DecidableEq

/-- Embeds `_handle_attempting_pod_start`: a truthy pod id moves to
WAITING_FOR_IDLE with the id and derived URL recorded; a falsy return or a
raised exception calls `_terminate_pods` once and moves to
WAITING_AFTER_FAILURE with an empty pod reference. -/
def handleAttemptingPodStart : PodStartResult → PodStartStep
  | .returned (some podId) =>
    ⟨STATE_WAITING_FOR_IDLE, podId, POD_URL_TEMPLATE podId, 0⟩
  | .returned none => ⟨STATE_WAITING_AFTER_FAILURE, "", "", 1⟩
  | .raised => ⟨STATE_WAITING_AFTER_FAILURE, "", "", 1⟩

/-- Return of `_handle_waiting_for_idle` plus the number of
`_terminate_pods` invocations and the number of `_check_pod_idle_status`
invocations the call performed. -/
structure WaitingForIdleStep where
  nextState : String
  lastIdleCheckTime : ℚ
  terminateCalls : Nat
  idleChecks : Nat
deriving DecidableEq

/-- Embeds `_handle_waiting_for_idle`: past the idle-wait timeout it
terminates and moves to WAITING_AFTER_FAILURE without checking; otherwise
it checks idleness only when at least POD_STATUS_CHECK_INTERVAL has passed
since the last check, recording the check time; an idle pod moves to
ATTEMPTING_PIPELINE_RUN, a non-idle one stays in WAITING_FOR_IDLE. -/
def handleWaitingForIdle (now elapsedCycleTime lastIdleCheckTime : ℚ)
    (statusHttp : HttpOutcome) : WaitingForIdleStep :=
  if elapsedCycleTime ≥ STATUS_CHECK_TIMEOUT then
    ⟨STATE_WAITING_AFTER_FAILURE, lastIdleCheckTime, 1, 0⟩
  else if now - lastIdleCheckTime ≥ POD_STATUS_CHECK_INTERVAL then
    if checkPodIdleStatus statusHttp then
      ⟨STATE_ATTEMPTING_PIPELINE_RUN, now, 0, 1⟩
    else
      ⟨STATE_WAITING_FOR_IDLE, now, 0, 1⟩
  else
    ⟨STATE_WAITING_FOR_IDLE, lastIdleCheckTime, 0, 0⟩

/-- Return of `_handle_attempting_pipeline_run` plus the stats store after
the call and the number of `_terminate_pods` invocations. -/
structure PipelineRunStep where
  nextState : String
  stats : Stats
  terminateCalls : Nat
deriving DecidableEq

/-- Embeds `_handle_attempting_pipeline_run`: a successful trigger moves to
UPDATING_COUNTS; a failed one calls `_terminate_pods` once and moves to
WAITING_AFTER_FAILURE. -/
def handleAttemptingPipelineRun (runHttp : HttpOutcome) (nowInt : Int)
    (st : Stats) : PipelineRunStep :=
  match triggerPipelineRun runHttp nowInt st with
  | (true, st1) => ⟨STATE_UPDATING_COUNTS, st1, 0⟩
  | (false, st1) => ⟨STATE_WAITING_AFTER_FAILURE, st1, 1⟩

/-- Return of `_handle_updating_counts` plus the number of
`_terminate_pods` invocations and the number of `_update_pod_counts`
invocations. -/
structure UpdatingCountsStep where
  nextState : String
  lastCountUpdateTime : ℚ
  terminateCalls : Nat
  countUpdateAttempts : Nat
deriving DecidableEq

/-- Embeds `_handle_updating_counts`: when at least COUNT_UPDATE_INTERVAL
has passed since the last successful update it calls `_update_pod_counts`,
recording the time only on success; in every case — including a failed
update — the next state is UPDATING_COUNTS and no termination happens. -/
def handleUpdatingCounts (now lastCountUpdateTime : ℚ)
    (countsRes : CountPodsResult) : UpdatingCountsStep :=
  if now - lastCountUpdateTime ≥ COUNT_UPDATE_INTERVAL then
    if updatePodCounts countsRes then
      ⟨STATE_UPDATING_COUNTS, now, 0, 1⟩
    else
      ⟨STATE_UPDATING_COUNTS, lastCountUpdateTime, 0, 1⟩
  else
    ⟨STATE_UPDATING_COUNTS, lastCountUpdateTime, 0, 0⟩

/-- Embeds `_handle_waiting_after_failure`: it only logs the remaining
cooldown and stays in WAITING_AFTER_FAILURE. -/
def handleWaitingAfterFailure (_elapsedCycleTime : ℚ) : String :=
  STATE_WAITING_AFTER_FAILURE

/-! ## One iteration of the main loop (manager.py, run) -/

/-- The `elapsed_cycle_time` computation at the top of each loop
iteration: `now - cycle_start_time if cycle_start_time > 0 else 0`. -/
def elapsedCycleTime (cycleStartTime now : ℚ) : ℚ :=
  if cycleStartTime > 0 then now - cycleStartTime else 0

/-- The time-based cycle reset run every tick before phase dispatch: when
not in STARTING_CYCLE and the elapsed cycle time has reached
CYCLE_DURATION, the state is forced to STARTING_CYCLE. -/
def preDispatchState (s : LoopState) (now : ℚ) : String :=
  if s.currentState ≠ STATE_STARTING_CYCLE ∧
      elapsedCycleTime s.cycleStartTime now ≥ CYCLE_DURATION then
    STATE_STARTING_CYCLE
  else
    s.currentState

/-- The external-call results consumed by one tick, together with the two
clock readings (`time.time()` as `ℚ`, `int(time.time())` as `ℤ`). -/
structure TickInputs where
  now : ℚ
  nowInt : Int
  podStart : PodStartResult
  statusHttp : HttpOutcome
  runHttp : HttpOutcome
  counts : CountPodsResult
deriving DecidableEq

/-- Counts of the externally visible calls one tick performed. -/
structure TickEvents where
  podStartAttempts : Nat := 0
  idleChecks : Nat := 0
  triggerAttempts : Nat := 0
  countUpdateAttempts : Nat := 0
  terminateCalls : Nat := 0
deriving DecidableEq

/-- The `if current_state == STATE_STARTING_CYCLE:` dispatch branch. -/
def stepStartingCycle (s : LoopState) (now : ℚ) : LoopState :=
  if s.currentState = STATE_STARTING_CYCLE then handleStartingCycle now else s

/-- The `if current_state == STATE_ATTEMPTING_POD_START:` dispatch
branch. -/
def stepPodStart (s : LoopState) (res : PodStartResult) (ev : TickEvents) :
    LoopState × TickEvents :=
  if s.currentState = STATE_ATTEMPTING_POD_START then
    let r := handleAttemptingPodStart res
    ({ s with currentState := r.nextState, podId := r.podId, podUrl := r.podUrl },
     { ev with podStartAttempts := ev.podStartAttempts + 1,
               terminateCalls := ev.terminateCalls + r.terminateCalls })
  else
    (s, ev)

/-- The `if current_state == STATE_WAITING_FOR_IDLE:` dispatch branch; note
that the source passes the `elapsed_cycle_time` computed at the top of the
tick, not a recomputed value. -/
def stepWaitingForIdle (s : LoopState) (now elapsed : ℚ) (o : HttpOutcome)
    (ev : TickEvents) : LoopState × TickEvents :=
  if s.currentState = STATE_WAITING_FOR_IDLE then
    let r := handleWaitingForIdle now elapsed s.lastIdleCheckTime o
    ({ s with currentState := r.nextState,
              lastIdleCheckTime := r.lastIdleCheckTime },
     { ev with idleChecks := ev.idleChecks + r.idleChecks,
               terminateCalls := ev.terminateCalls + r.terminateCalls })
  else
    (s, ev)

/-- The `if current_state == STATE_ATTEMPTING_PIPELINE_RUN:` dispatch
branch. -/
def stepPipelineRun (s : LoopState) (runHttp : HttpOutcome) (nowInt : Int)
    (st : Stats) (ev : TickEvents) : LoopState × Stats × TickEvents :=
  if s.currentState = STATE_ATTEMPTING_PIPELINE_RUN then
    let r := handleAttemptingPipelineRun runHttp nowInt st
    ({ s with currentState := r.nextState }, r.stats,
     { ev with triggerAttempts := ev.triggerAttempts + 1,
               terminateCalls := ev.terminateCalls + r.terminateCalls })
  else
    (s, st, ev)

/-- The `if current_state == STATE_UPDATING_COUNTS:` dispatch branch. -/
def stepUpdatingCounts (s : LoopState) (now : ℚ) (res : CountPodsResult)
    (ev : TickEvents) : LoopState × TickEvents :=
  if s.currentState = STATE_UPDATING_COUNTS then
    let r := handleUpdatingCounts now s.lastCountUpdateTime res
    ({ s with currentState := r.nextState,
              lastCountUpdateTime := r.lastCountUpdateTime },
     { ev with countUpdateAttempts := ev.countUpdateAttempts + r.countUpdateAttempts,
               terminateCalls := ev.terminateCalls + r.terminateCalls })
  else
    (s, ev)

/-- The `if current_state == STATE_WAITING_AFTER_FAILURE:` dispatch
branch. -/
def stepWaitingAfterFailure (s : LoopState) (elapsed : ℚ) : LoopState :=
  if s.currentState = STATE_WAITING_AFTER_FAILURE then
    { s with currentState := handleWaitingAfterFailure elapsed }
  else
    s

/-- One full iteration of the main loop body up to (but excluding) the
valid-state check: the elapsed-time computation, the time-based cycle
reset, and the six sequential dispatch branches, each tested against the
current value of `current_state` left by the previous branches. -/
def tick (s : LoopState) (st : Stats) (inp : TickInputs) :
    LoopState × Stats × TickEvents :=
  let elapsed := elapsedCycleTime s.cycleStartTime inp.now
  let s0 : LoopState := { s with currentState := preDispatchState s inp.now }
  let s1 := stepStartingCycle s0 inp.now
  let p2 := stepPodStart s1 inp.podStart {}
  let p3 := stepWaitingForIdle p2.1 inp.now elapsed inp.statusHttp p2.2
  let p4 := stepPipelineRun p3.1 inp.runHttp inp.nowInt st p3.2
  let p5 := stepUpdatingCounts p4.1 inp.now inp.counts p4.2.2
  let s6 := stepWaitingAfterFailure p5.1 elapsed
  (s6, p4.2.1, p5.2)

/-- The valid-state check at the end of the loop body: an invalid computed
state raises `RuntimeError`, modelled as the error case. -/
def tickChecked (s : LoopState) (st : Stats) (inp : TickInputs) :
    Except String (LoopState × Stats × TickEvents) :=
  let r := tick s st inp
  if r.1.currentState ∈ VALID_STATES then
    .ok r
  else
    .error ("Encountered unknown or invalid state: " ++ r.1.currentState ++ ". Aborting.")

/-- What the top-level `try/except/finally` of `run` does when the loop
body raises: `except Exception` logs at critical severity and sets the
shutdown event, the `finally` block runs the `_shutdown` sequence, and the
exception is not re-raised past the loop boundary. -/
structure AbortOutcome where
  criticalLogged : Bool
  shutdownSet : Bool
  shutdownCalled : Bool
  raisedPastBoundary : Bool
deriving DecidableEq

/-- Result of one trip around the loop as seen from the top level of
`run`: either the loop proceeds to the next iteration with the new state,
or it aborts through the exception path. -/
inductive TickOutcome where
  | nextIteration (s : LoopState) (st : Stats) (ev : TickEvents)
  | aborted (a : AbortOutcome)
deriving DecidableEq

/-- One loop iteration including the top-level exception handling of
`run`: a `RuntimeError` from the valid-state check is caught by `except
Exception`, logged critically, converted into a set shutdown event and a
clean `_shutdown`, and never re-raised. -/
def runTick (s : LoopState) (st : Stats) (inp : TickInputs) : TickOutcome :=
  match tickChecked s st inp with
  | .ok (s1, st1, ev) => .nextIteration s1 st1 ev
  | .error _ => .aborted ⟨true, true, true, false⟩

/-! ## Derived notions used to state the claims -/

/-- A failed `runpod_start_manager.run()` gateway call: a raised exception
or a falsy return value. -/
def podStartFailed (res : PodStartResult) : Prop :=
  res = .raised ∨ res = .returned none

/-- Spec-side characterisation of the outcomes on which
`_trigger_pipeline_run` reports success: a response whose status passes
`raise_for_status` (it is not in 400–599) and whose JSON body is an object
containing a "message" key. -/
def triggerRunSuccessCriterion : HttpOutcome → Bool
  | .response status (.dict kvs) =>
    !raisesForStatus status && (List.lookup "message" kvs).isSome
  | _ => false

/-- Spec-side characterisation of the outcomes on which
`_check_pod_idle_status` reports an idle pod: a response whose status
passes `raise_for_status` and whose JSON body is an object mapping
"status" to the string "idle". -/
def checkIdleSuccessCriterion : HttpOutcome → Bool
  | .response status (.dict kvs) =>
    !raisesForStatus status && (List.lookup "status" kvs == some (JVal.str "idle"))
  | _ => false

/-- Whether the time-based cycle reset fires on a tick entered in loop
state `s` at time `now`. -/
def resetFires (s : LoopState) (now : ℚ) : Bool :=
  decide (s.currentState ≠ STATE_STARTING_CYCLE ∧
    elapsedCycleTime s.cycleStartTime now ≥ CYCLE_DURATION)

/-- How many of the given consecutive ticks trigger the time-based cycle
reset, threading the loop state through `tick`. -/
def countResets (s : LoopState) (st : Stats) : List TickInputs → Nat
  | [] => 0
  | inp :: rest =>
    (if resetFires s inp.now then 1 else 0) +
      countResets (tick s st inp).1 (tick s st inp).2.1 rest

/-- The times at which `_check_pod_idle_status` is invoked along a run of
consecutive WAITING_FOR_IDLE ticks: each list element is one tick's
`(now, elapsed_cycle_time, status-request outcome)`; the recursion threads
`last_idle_check_time` exactly as the main loop does and stops as soon as
the handler leaves WAITING_FOR_IDLE. -/
def idleCheckTimes (lastIdleCheckTime : ℚ) :
    List (ℚ × ℚ × HttpOutcome) → List ℚ
  | [] => []
  | (now, elapsed, o) :: rest =>
    let r := handleWaitingForIdle now elapsed lastIdleCheckTime o
    let tail :=
      if r.nextState = STATE_WAITING_FOR_IDLE then
        idleCheckTimes r.lastIdleCheckTime rest
      else
        []
    if r.idleChecks = 1 then now :: tail else tail

/-! ## Helper lemmas about the dispatch steps -/

theorem handleAttemptingPodStart_ne_starting (res : PodStartResult) :
    (handleAttemptingPodStart res).nextState ≠ STATE_STARTING_CYCLE := by
  cases res with
  | raised => decide
  | returned v =>
    cases v with
    | none => decide
    | some podId =>
      simp +decide [handleAttemptingPodStart, STATE_WAITING_FOR_IDLE, STATE_STARTING_CYCLE]

theorem handleWaitingForIdle_ne_starting (now elapsed last : ℚ) (o : HttpOutcome) :
    (handleWaitingForIdle now elapsed last o).nextState ≠ STATE_STARTING_CYCLE := by
  unfold handleWaitingForIdle
  split_ifs <;>
    simp +decide [STATE_WAITING_AFTER_FAILURE, STATE_ATTEMPTING_PIPELINE_RUN,
      STATE_WAITING_FOR_IDLE, STATE_STARTING_CYCLE]

theorem handleAttemptingPipelineRun_ne_starting (o : HttpOutcome) (nowInt : Int)
    (st : Stats) :
    (handleAttemptingPipelineRun o nowInt st).nextState ≠ STATE_STARTING_CYCLE := by
  unfold handleAttemptingPipelineRun
  rcases h : triggerPipelineRun o nowInt st with ⟨b, st1⟩
  cases b <;>
    simp +decide [STATE_UPDATING_COUNTS, STATE_WAITING_AFTER_FAILURE, STATE_STARTING_CYCLE]

theorem handleUpdatingCounts_nextState (now last : ℚ) (res : CountPodsResult) :
    (handleUpdatingCounts now last res).nextState = STATE_UPDATING_COUNTS := by
  unfold handleUpdatingCounts
  split_ifs <;> rfl

theorem handleUpdatingCounts_terminateCalls (now last : ℚ) (res : CountPodsResult) :
    (handleUpdatingCounts now last res).terminateCalls = 0 := by
  unfold handleUpdatingCounts
  split_ifs <;> rfl

theorem stepStartingCycle_ne_starting (s : LoopState) (now : ℚ) :
    (stepStartingCycle s now).currentState ≠ STATE_STARTING_CYCLE := by
  unfold stepStartingCycle
  split
  · simp +decide [handleStartingCycle, STATE_ATTEMPTING_POD_START, STATE_STARTING_CYCLE]
  · assumption

theorem stepPodStart_state_starting {s : LoopState} {res : PodStartResult}
    {ev : TickEvents}
    (h : (stepPodStart s res ev).1.currentState = STATE_STARTING_CYCLE) :
    s.currentState = STATE_STARTING_CYCLE := by
  unfold stepPodStart at h
  split at h
  · dsimp only at h
    exact absurd h (handleAttemptingPodStart_ne_starting res)
  · exact h

theorem stepWaitingForIdle_state_starting {s : LoopState} {now elapsed : ℚ}
    {o : HttpOutcome} {ev : TickEvents}
    (h : (stepWaitingForIdle s now elapsed o ev).1.currentState = STATE_STARTING_CYCLE) :
    s.currentState = STATE_STARTING_CYCLE := by
  unfold stepWaitingForIdle at h
  split at h
  · dsimp only at h
    exact absurd h (handleWaitingForIdle_ne_starting now elapsed s.lastIdleCheckTime o)
  · exact h

theorem stepPipelineRun_state_starting {s : LoopState} {o : HttpOutcome}
    {nowInt : Int} {st : Stats} {ev : TickEvents}
    (h : (stepPipelineRun s o nowInt st ev).1.currentState = STATE_STARTING_CYCLE) :
    s.currentState = STATE_STARTING_CYCLE := by
  unfold stepPipelineRun at h
  split at h
  · dsimp only at h
    exact absurd h (handleAttemptingPipelineRun_ne_starting o nowInt st)
  · exact h

theorem stepUpdatingCounts_state_starting {s : LoopState} {now : ℚ}
    {res : CountPodsResult} {ev : TickEvents}
    (h : (stepUpdatingCounts s now res ev).1.currentState = STATE_STARTING_CYCLE) :
    s.currentState = STATE_STARTING_CYCLE := by
  unfold stepUpdatingCounts at h
  split at h
  · dsimp only at h
    rw [handleUpdatingCounts_nextState] at h
    exact absurd h (by decide)
  · exact h

theorem stepWaitingAfterFailure_state_starting {s : LoopState} {elapsed : ℚ}
    (h : (stepWaitingAfterFailure s elapsed).currentState = STATE_STARTING_CYCLE) :
    s.currentState = STATE_STARTING_CYCLE := by
  unfold stepWaitingAfterFailure at h
  split at h
  · dsimp only [handleWaitingAfterFailure] at h
    exact absurd h (by decide)
  · exact h

theorem tick_currentState_ne_starting (s : LoopState) (st : Stats) (inp : TickInputs) :
    (tick s st inp).1.currentState ≠ STATE_STARTING_CYCLE := by
  intro h
  simp only [tick] at h
  exact stepStartingCycle_ne_starting
    { s with currentState := preDispatchState s inp.now } inp.now
    (stepPodStart_state_starting (stepWaitingForIdle_state_starting
      (stepPipelineRun_state_starting (stepUpdatingCounts_state_starting
        (stepWaitingAfterFailure_state_starting h)))))

theorem stepPodStart_cycleStartTime (s : LoopState) (res : PodStartResult)
    (ev : TickEvents) :
    (stepPodStart s res ev).1.cycleStartTime = s.cycleStartTime := by
  unfold stepPodStart
  split <;> rfl

theorem stepWaitingForIdle_cycleStartTime (s : LoopState) (now elapsed : ℚ)
    (o : HttpOutcome) (ev : TickEvents) :
    (stepWaitingForIdle s now elapsed o ev).1.cycleStartTime = s.cycleStartTime := by
  unfold stepWaitingForIdle
  split <;> rfl

theorem stepPipelineRun_cycleStartTime (s : LoopState) (o : HttpOutcome)
    (nowInt : Int) (st : Stats) (ev : TickEvents) :
    (stepPipelineRun s o nowInt st ev).1.cycleStartTime = s.cycleStartTime := by
  unfold stepPipelineRun
  split <;> rfl

theorem stepUpdatingCounts_cycleStartTime (s : LoopState) (now : ℚ)
    (res : CountPodsResult) (ev : TickEvents) :
    (stepUpdatingCounts s now res ev).1.cycleStartTime = s.cycleStartTime := by
  unfold stepUpdatingCounts
  split <;> rfl

theorem stepWaitingAfterFailure_cycleStartTime (s : LoopState) (elapsed : ℚ) :
    (stepWaitingAfterFailure s elapsed).cycleStartTime = s.cycleStartTime := by
  unfold stepWaitingAfterFailure
  split <;> rfl

theorem stepStartingCycle_cycleStartTime (s : LoopState) (now : ℚ) :
    (stepStartingCycle s now).cycleStartTime =
      if s.currentState = STATE_STARTING_CYCLE then now else s.cycleStartTime := by
  unfold stepStartingCycle
  split
  · rfl
  · rfl

theorem tick_cycleStartTime (s : LoopState) (st : Stats) (inp : TickInputs) :
    (tick s st inp).1.cycleStartTime =
      if preDispatchState s inp.now = STATE_STARTING_CYCLE then inp.now
      else s.cycleStartTime := by
  simp only [tick]
  rw [stepWaitingAfterFailure_cycleStartTime, stepUpdatingCounts_cycleStartTime,
    stepPipelineRun_cycleStartTime, stepWaitingForIdle_cycleStartTime,
    stepPodStart_cycleStartTime, stepStartingCycle_cycleStartTime]

theorem stepStartingCycle_skip {s : LoopState} (now : ℚ)
    (h : s.currentState ≠ STATE_STARTING_CYCLE) :
    stepStartingCycle s now = s := by
  unfold stepStartingCycle
  exact if_neg h

theorem stepPodStart_skip {s : LoopState} (res : PodStartResult) (ev : TickEvents)
    (h : s.currentState ≠ STATE_ATTEMPTING_POD_START) :
    stepPodStart s res ev = (s, ev) := by
  unfold stepPodStart
  exact if_neg h

theorem stepWaitingForIdle_skip {s : LoopState} (now elapsed : ℚ) (o : HttpOutcome)
    (ev : TickEvents) (h : s.currentState ≠ STATE_WAITING_FOR_IDLE) :
    stepWaitingForIdle s now elapsed o ev = (s, ev) := by
  unfold stepWaitingForIdle
  exact if_neg h

theorem stepPipelineRun_skip {s : LoopState} (o : HttpOutcome) (nowInt : Int)
    (st : Stats) (ev : TickEvents)
    (h : s.currentState ≠ STATE_ATTEMPTING_PIPELINE_RUN) :
    stepPipelineRun s o nowInt st ev = (s, st, ev) := by
  unfold stepPipelineRun
  exact if_neg h

theorem stepUpdatingCounts_skip {s : LoopState} (now : ℚ) (res : CountPodsResult)
    (ev : TickEvents) (h : s.currentState ≠ STATE_UPDATING_COUNTS) :
    stepUpdatingCounts s now res ev = (s, ev) := by
  unfold stepUpdatingCounts
  exact if_neg h

theorem stepWaitingAfterFailure_skip {s : LoopState} (elapsed : ℚ)
    (h : s.currentState ≠ STATE_WAITING_AFTER_FAILURE) :
    stepWaitingAfterFailure s elapsed = s := by
  unfold stepWaitingAfterFailure
  exact if_neg h

/-! ## Claim C1 -/

/-- Claim C1, counterexample: in the UPDATING_COUNTS phase a failed Gateway
call (`count_pods` raising) leaves the state in UPDATING_COUNTS and does not
invoke `terminate_all` at all, contradicting the claim that every phase
other than WAITING_AFTER_FAILURE and STARTING_CYCLE reacts to a Gateway
failure by terminating once and moving to WAITING_AFTER_FAILURE: at
`now = 100`, `last_count_update_time = 0` the counts call is attempted
(count 1), fails, yet the next state is UPDATING_COUNTS (not
WAITING_AFTER_FAILURE) and the terminate count is 0. -/
theorem updatingCountsFailureStaysPut :
    handleUpdatingCounts 100 0 CountPodsResult.raised =
      ⟨STATE_UPDATING_COUNTS, 0, 0, 1⟩ ∧
    STATE_UPDATING_COUNTS ≠ STATE_WAITING_AFTER_FAILURE := by
  constructor
  · norm_num [handleUpdatingCounts, COUNT_UPDATE_INTERVAL, updatePodCounts]
  · decide

/-- Claim C1, amended: a Gateway-call failure moves to
WAITING_AFTER_FAILURE with exactly one `terminate_all` invocation in the
phases ATTEMPTING_POD_START and ATTEMPTING_PIPELINE_RUN only; in
WAITING_FOR_IDLE a failed (false) idle check before the timeout keeps the
phase and terminates nothing, and in UPDATING_COUNTS the handler keeps the
phase and never terminates, even when the counts call fails. -/
theorem gatewayFailureHandling :
    (∀ res : PodStartResult, podStartFailed res →
      handleAttemptingPodStart res = ⟨STATE_WAITING_AFTER_FAILURE, "", "", 1⟩) ∧
    (∀ (o : HttpOutcome) (nowInt : Int) (st : Stats),
      (triggerPipelineRun o nowInt st).1 = false →
      (handleAttemptingPipelineRun o nowInt st).nextState = STATE_WAITING_AFTER_FAILURE ∧
      (handleAttemptingPipelineRun o nowInt st).terminateCalls = 1) ∧
    (∀ (now elapsed last : ℚ) (o : HttpOutcome),
      elapsed < STATUS_CHECK_TIMEOUT → checkPodIdleStatus o = false →
      (handleWaitingForIdle now elapsed last o).nextState = STATE_WAITING_FOR_IDLE ∧
      (handleWaitingForIdle now elapsed last o).terminateCalls = 0) ∧
    (∀ (now last : ℚ) (res : CountPodsResult),
      (handleUpdatingCounts now last res).nextState = STATE_UPDATING_COUNTS ∧
      (handleUpdatingCounts now last res).terminateCalls = 0) := by
  refine ⟨?_, ?_, ?_, ?_⟩
  · rintro res (rfl | rfl) <;> rfl
  · intro o nowInt st h
    unfold handleAttemptingPipelineRun
    rcases hr : triggerPipelineRun o nowInt st with ⟨b, st1⟩
    rw [hr] at h
    cases b
    · exact ⟨rfl, rfl⟩
    · exact absurd h (by simp)
  · intro now elapsed last o hTime hIdle
    unfold handleWaitingForIdle
    rw [if_neg (not_le.mpr hTime)]
    split
    · rw [hIdle]
      exact ⟨rfl, rfl⟩
    · exact ⟨rfl, rfl⟩
  · intro now last res
    exact ⟨handleUpdatingCounts_nextState now last res,
      handleUpdatingCounts_terminateCalls now last res⟩

/-- Claim C1, witness: concrete instances of `gatewayFailureHandling` — a
falsy pod-start return, a trigger network error, a non-idle check at
`elapsed = 0`, and a raised counts call. -/
theorem gatewayFailureHandling_witness :
    handleAttemptingPodStart (.returned none) =
      ⟨STATE_WAITING_AFTER_FAILURE, "", "", 1⟩ ∧
    (handleAttemptingPipelineRun .networkError 7 {}).nextState =
      STATE_WAITING_AFTER_FAILURE ∧
    (handleWaitingForIdle 10 0 0 .networkError).nextState = STATE_WAITING_FOR_IDLE ∧
    (handleUpdatingCounts 100 0 .raised).terminateCalls = 0 :=
  ⟨gatewayFailureHandling.1 _ (Or.inr rfl),
   (gatewayFailureHandling.2.1 .networkError 7 {} rfl).1,
   (gatewayFailureHandling.2.2.1 10 0 0 .networkError
     (by norm_num [STATUS_CHECK_TIMEOUT]) rfl).1,
   (gatewayFailureHandling.2.2.2 100 0 .raised).2⟩

/-! ## Claim C3 -/

/-- Claim C3, counterexample: `_trigger_pipeline_run` returns true and sets
the last-run timestamp for an HTTP 201 response whose body is the object
mapping "message" to "ok" — the status is not 200 and the body carries no
"success" field, so success does not require HTTP 200. -/
theorem triggerRunTrueOnNon200 :
    triggerPipelineRun (.response 201 (.dict [("message", JVal.str "ok")])) 42 {} =
      (true, { pipeline_last_run_time := 42 }) ∧
    (201 : Nat) ≠ 200 := by
  constructor
  · decide
  · decide

/-- Claim C3, amended: `_trigger_pipeline_run` returns true exactly when the
response status passes `raise_for_status` (it is outside 400–599) and the
JSON body is an object containing a "message" key; exactly in that case the
stats store's last-run timestamp is set to the current time, and in every
other outcome (HTTP error status, network exception, JSON decode failure,
non-object body, or an object without "message") it returns false and
leaves the stats untouched. -/
theorem triggerRunCharacterization (o : HttpOutcome) (nowInt : Int) (st : Stats) :
    triggerPipelineRun o nowInt st =
      (triggerRunSuccessCriterion o,
       if triggerRunSuccessCriterion o then st.set_pipeline_last_run_time nowInt
       else st) := by
  cases o with
  | networkError => rfl
  | response status body =>
    cases body with
    | parseError =>
      simp only [triggerPipelineRun, processTriggerPipelineRunResponse,
        triggerRunSuccessCriterion]
      split_ifs <;> simp_all
    | nonDict =>
      simp only [triggerPipelineRun, processTriggerPipelineRunResponse,
        triggerRunSuccessCriterion]
      split_ifs <;> simp_all
    | dict kvs =>
      simp only [triggerPipelineRun, processTriggerPipelineRunResponse,
        triggerRunSuccessCriterion]
      by_cases hs : raisesForStatus status = true <;>
        by_cases hm : (List.lookup "message" kvs).isSome <;>
          simp [hs, hm]

/-! ## Claim C4 -/

/-- Claim C4, counterexample: `_check_pod_idle_status` returns true for an
HTTP 201 response whose body also carries an extra key — so true is not
restricted to HTTP 200, nor to a body that is exactly the object mapping
"status" to "idle". -/
theorem checkIdleTrueOnNon200 :
    checkPodIdleStatus
      (.response 201 (.dict [("status", JVal.str "idle"), ("extra", JVal.other)])) =
      true ∧
    (201 : Nat) ≠ 200 := by
  constructor
  · decide
  · decide

/-- Claim C4, amended: `_check_pod_idle_status` returns true exactly when
the response status passes `raise_for_status` (it is outside 400–599) and
the JSON body is an object whose "status" key maps to the string "idle";
every other outcome — an HTTP error status, a non-idle status value, a
non-object or unparseable body, or a network exception — returns false, and
the embedding is total, so no modelled outcome raises to the caller. -/
theorem checkIdleCharacterization (o : HttpOutcome) :
    checkPodIdleStatus o = checkIdleSuccessCriterion o := by
  cases o with
  | networkError => rfl
  | response status body =>
    cases body with
    | parseError =>
      simp only [checkPodIdleStatus, checkIdleSuccessCriterion]
      split_ifs <;> simp_all
    | nonDict =>
      simp only [checkPodIdleStatus, checkIdleSuccessCriterion]
      split_ifs <;> simp_all
    | dict kvs =>
      simp only [checkPodIdleStatus, checkIdleSuccessCriterion]
      by_cases hs : raisesForStatus status = true <;> simp [hs]

/-! ## Claim C5 -/

/-- Claim C5 (code bug): the route table registered by `_register_routes`
in this revision of rest_interface.py has no "/stats" rule at all — it
registers exactly "/stats/pods-count", "/stats/pipeline-last-run-time" and
"/logs", and the pods-count handler returns a body keyed "pods_count", not
a three-counter "stats" object; a GET /stats request therefore matches no
route (404), while the repository's own tests require GET /stats to return
the three-counter snapshot. -/
theorem statsRouteAbsent :
    ((registeredRoutes.map Route.rule).contains "/stats") = false ∧
    registeredRoutes.map Route.rule =
      ["/stats/pods-count", "/stats/pipeline-last-run-time", "/logs"] ∧
    (∀ st : Stats, getPodsCountHandler st = ([("pods_count", st.pods_count)], 200)) :=
  ⟨by decide, by decide, fun _ => rfl⟩

/-! ## Claim C6 -/

/-- Claim C6 (code bug): the `Stats` class in this revision of
rest_interface.py defines accessors only for `pods_count` and
`pipeline_last_run_time` — none of `set_pods_total`/`get_pods_total`,
`set_pods_running`/`get_pods_running`, nor a `get_all` (or `get_all_stats`)
snapshot exist, although the repository's own tests and manager.py call
them; the accessors that do exist round-trip correctly. -/
theorem statsStoreMethodMismatch :
    statsMethodNames.contains "set_pods_total" = false ∧
    statsMethodNames.contains "get_pods_total" = false ∧
    statsMethodNames.contains "set_pods_running" = false ∧
    statsMethodNames.contains "get_pods_running" = false ∧
    statsMethodNames.contains "get_all" = false ∧
    statsMethodNames.contains "get_all_stats" = false ∧
    (∀ (st : Stats) (n : Int), (st.set_pods_count n).get_pods_count = n) ∧
    (∀ (st : Stats) (t : Int),
      (st.set_pipeline_last_run_time t).get_pipeline_last_run_time = t) :=
  ⟨by decide, by decide, by decide, by decide, by decide, by decide,
   fun _ _ => rfl, fun _ _ => rfl⟩

/-! ## Claim C7 -/

/-- Claim C7, counterexample: with the key "secret" configured, a request
that does supply an `api_key` query parameter, with the empty string as its
value, carries a non-matching key yet receives the "API key required"
message rather than "Invalid API key" — the source tests `if not
provided_key`, which is true for the empty string. -/
theorem emptyKeyParamRequiredMessage :
    checkApiKey (some "secret") (some "") =
      some ⟨"Forbidden", "API key required", 403⟩ ∧
    some "" ≠ some "secret" := by
  constructor
  · decide
  · decide

/-- Claim C7, amended: when a non-empty API key is configured, a request
whose `api_key` query parameter is missing or empty receives 403 "API key
required", a request with a non-empty non-matching key receives 403
"Invalid API key", and a request with the matching key is allowed through;
when no key — or the empty-string key, which Python treats as falsy — is
configured, every request is allowed. -/
theorem apiKeyGateBehavior :
    (∀ k : String, k ≠ "" →
      checkApiKey (some k) none = some ⟨"Forbidden", "API key required", 403⟩) ∧
    (∀ k : String, k ≠ "" →
      checkApiKey (some k) (some "") =
        some ⟨"Forbidden", "API key required", 403⟩) ∧
    (∀ k p : String, k ≠ "" → p ≠ "" → p ≠ k →
      checkApiKey (some k) (some p) =
        some ⟨"Forbidden", "Invalid API key", 403⟩) ∧
    (∀ k : String, k ≠ "" → checkApiKey (some k) (some k) = none) ∧
    (∀ p : Option String, checkApiKey none p = none) ∧
    (∀ p : Option String, checkApiKey (some "") p = none) := by
  refine ⟨?_, ?_, ?_, ?_, ?_, ?_⟩
  · intro k hk
    simp [checkApiKey, pyTruthy, hk]
  · intro k hk
    simp [checkApiKey, pyTruthy, hk]
  · intro k p hk hp hpk
    simp [checkApiKey, pyTruthy, hk, hp, hpk]
  · intro k hk
    simp [checkApiKey, pyTruthy, hk]
  · intro p
    simp [checkApiKey, pyTruthy]
  · intro p
    simp [checkApiKey, pyTruthy]

/-- Claim C7, witness: the gate at the concrete configured key "secret",
exercised with a missing parameter, an empty value, the wrong key "wrong",
the matching key, and with no configured key. -/
theorem apiKeyGateBehavior_witness :
    checkApiKey (some "secret") none =
      some ⟨"Forbidden", "API key required", 403⟩ ∧
    checkApiKey (some "secret") (some "") =
      some ⟨"Forbidden", "API key required", 403⟩ ∧
    checkApiKey (some "secret") (some "wrong") =
      some ⟨"Forbidden", "Invalid API key", 403⟩ ∧
    checkApiKey (some "secret") (some "secret") = none ∧
    checkApiKey none (some "anything") = none :=
  ⟨apiKeyGateBehavior.1 "secret" (by decide),
   apiKeyGateBehavior.2.1 "secret" (by decide),
   apiKeyGateBehavior.2.2.1 "secret" "wrong" (by decide) (by decide) (by decide),
   apiKeyGateBehavior.2.2.2.1 "secret" (by decide),
   apiKeyGateBehavior.2.2.2.2.1 (some "anything")⟩

/-! ## Claim C2 -/

theorem preDispatch_reset {s : LoopState} {now : ℚ}
    (h1 : s.currentState ≠ STATE_STARTING_CYCLE)
    (h2 : elapsedCycleTime s.cycleStartTime now ≥ CYCLE_DURATION) :
    preDispatchState s now = STATE_STARTING_CYCLE := by
  unfold preDispatchState
  rw [if_pos ⟨h1, h2⟩]

theorem elapsed_lt_of_sub_lt {s : LoopState} {now : ℚ}
    (h : now - s.cycleStartTime < CYCLE_DURATION) :
    elapsedCycleTime s.cycleStartTime now < CYCLE_DURATION := by
  unfold elapsedCycleTime
  split
  · exact h
  · norm_num [CYCLE_DURATION]

theorem preDispatch_no_reset {s : LoopState} {now : ℚ}
    (h : elapsedCycleTime s.cycleStartTime now < CYCLE_DURATION) :
    preDispatchState s now = s.currentState := by
  unfold preDispatchState
  rw [if_neg]
  rintro ⟨-, h2⟩
  exact absurd h2 (not_le.mpr h)

theorem countResets_eq_zero :
    ∀ (inps : List TickInputs) (s : LoopState) (st : Stats),
      s.currentState ≠ STATE_STARTING_CYCLE →
      (∀ inp ∈ inps, inp.now - s.cycleStartTime < CYCLE_DURATION) →
      countResets s st inps = 0 := by
  intro inps
  induction inps with
  | nil => intro s st _ _; rfl
  | cons inp rest ih =>
    intro s st hState hIn
    have hLt : elapsedCycleTime s.cycleStartTime inp.now < CYCLE_DURATION :=
      elapsed_lt_of_sub_lt (hIn inp (List.mem_cons_self inp rest))
    have hFire : resetFires s inp.now = false := by
      unfold resetFires
      simp only [decide_eq_false_iff_not]
      rintro ⟨-, h2⟩
      exact absurd h2 (not_le.mpr hLt)
    have hPre : preDispatchState s inp.now ≠ STATE_STARTING_CYCLE := by
      rw [preDispatch_no_reset hLt]
      exact hState
    have hCs : (tick s st inp).1.cycleStartTime = s.cycleStartTime := by
      rw [tick_cycleStartTime, if_neg hPre]
    unfold countResets
    rw [hFire]
    simp only [Bool.false_eq_true, if_false, Nat.zero_add]
    exact ih (tick s st inp).1 (tick s st inp).2.1
      (tick_currentState_ne_starting s st inp)
      (fun inp2 h2 => by rw [hCs]; exact hIn inp2 (List.mem_cons_of_mem inp h2))

/-- Claim C2 (confirmed): on every tick, outside STARTING_CYCLE an elapsed
cycle time of at least CYCLE_DURATION forces the pre-dispatch phase to
STARTING_CYCLE; a tick whose pre-dispatch phase is STARTING_CYCLE
establishes the tick's time as the new cycle start and never ends the tick
still in STARTING_CYCLE; whenever less than CYCLE_DURATION has passed since
the recorded cycle start no reset fires; a non-reset tick leaves the cycle
start time unchanged; and hence along any run of ticks that stays within
CYCLE_DURATION of the recorded cycle start, the reset fires zero times. -/
theorem hourlyResetProperties :
    (∀ (s : LoopState) (now : ℚ),
      s.currentState ≠ STATE_STARTING_CYCLE →
      elapsedCycleTime s.cycleStartTime now ≥ CYCLE_DURATION →
      preDispatchState s now = STATE_STARTING_CYCLE) ∧
    (∀ (s : LoopState) (st : Stats) (inp : TickInputs),
      preDispatchState s inp.now = STATE_STARTING_CYCLE →
      (tick s st inp).1.cycleStartTime = inp.now ∧
      (tick s st inp).1.currentState ≠ STATE_STARTING_CYCLE) ∧
    (∀ (s : LoopState) (now : ℚ),
      now - s.cycleStartTime < CYCLE_DURATION →
      preDispatchState s now = s.currentState) ∧
    (∀ (s : LoopState) (st : Stats) (inp : TickInputs),
      preDispatchState s inp.now ≠ STATE_STARTING_CYCLE →
      (tick s st inp).1.cycleStartTime = s.cycleStartTime) ∧
    (∀ (inps : List TickInputs) (s : LoopState) (st : Stats),
      s.currentState ≠ STATE_STARTING_CYCLE →
      (∀ inp ∈ inps, inp.now - s.cycleStartTime < CYCLE_DURATION) →
      countResets s st inps = 0) := by
  refine ⟨?_, ?_, ?_, ?_, countResets_eq_zero⟩
  · intro s now h1 h2
    exact preDispatch_reset h1 h2
  · intro s st inp h
    constructor
    · rw [tick_cycleStartTime, if_pos h]
    · exact tick_currentState_ne_starting s st inp
  · intro s now h
    exact preDispatch_no_reset (elapsed_lt_of_sub_lt h)
  · intro s st inp h
    rw [tick_cycleStartTime, if_neg h]

/-- Claim C2, witness: a cooldown tick at `now = 3700` with cycle start 10
forces a reset and establishes 3700 as the new cycle start; a tick at
`now = 3710` with cycle start 3700 does not fire the reset; and the
two-tick run at times 3710 and 4000 from that state fires no reset. -/
theorem hourlyResetProperties_witness :
    preDispatchState ⟨STATE_WAITING_AFTER_FAILURE, 10, "", "", 0, 0⟩ 3700 =
      STATE_STARTING_CYCLE ∧
    (tick ⟨STATE_WAITING_AFTER_FAILURE, 10, "", "", 0, 0⟩ {}
      ⟨3700, 3700, .raised, .networkError, .networkError, .raised⟩).1.cycleStartTime =
      3700 ∧
    preDispatchState ⟨STATE_WAITING_FOR_IDLE, 3700, "p", "u", 0, 0⟩ 3710 =
      STATE_WAITING_FOR_IDLE ∧
    (tick ⟨STATE_WAITING_FOR_IDLE, 3700, "p", "u", 0, 0⟩ {}
      ⟨3710, 3710, .raised, .networkError, .networkError, .raised⟩).1.cycleStartTime =
      3700 ∧
    countResets ⟨STATE_WAITING_FOR_IDLE, 3700, "p", "u", 0, 0⟩ {}
      [⟨3710, 3710, .raised, .networkError, .networkError, .raised⟩,
       ⟨4000, 4000, .raised, .networkError, .networkError, .raised⟩] = 0 := by
  have h1 := hourlyResetProperties.1 ⟨STATE_WAITING_AFTER_FAILURE, 10, "", "", 0, 0⟩
    3700 (by decide) (by norm_num [elapsedCycleTime, CYCLE_DURATION])
  have h2 := hourlyResetProperties.2.1 ⟨STATE_WAITING_AFTER_FAILURE, 10, "", "", 0, 0⟩
    {} ⟨3700, 3700, .raised, .networkError, .networkError, .raised⟩ h1
  have h3 := hourlyResetProperties.2.2.1 ⟨STATE_WAITING_FOR_IDLE, 3700, "p", "u", 0, 0⟩
    3710 (by norm_num [CYCLE_DURATION])
  have h4 := hourlyResetProperties.2.2.2.1 ⟨STATE_WAITING_FOR_IDLE, 3700, "p", "u", 0, 0⟩
    {} ⟨3710, 3710, .raised, .networkError, .networkError, .raised⟩
    (by rw [h3]; decide)
  have h5 := hourlyResetProperties.2.2.2.2
    [⟨3710, 3710, .raised, .networkError, .networkError, .raised⟩,
     ⟨4000, 4000, .raised, .networkError, .networkError, .raised⟩]
    ⟨STATE_WAITING_FOR_IDLE, 3700, "p", "u", 0, 0⟩ {} (by decide)
    (by
      intro inp hm
      rcases List.mem_cons.mp hm with rfl | hm2
      · norm_num [CYCLE_DURATION]
      · rcases List.mem_singleton.mp hm2 with rfl
        norm_num [CYCLE_DURATION])
  exact ⟨h1, h2.1, h3, h4, h5⟩

/-! ## Claim C9 -/

/-- Claim C9 (confirmed): whenever the state computed by a tick's dispatch
is not one of the six valid phases, the top level of `run` catches the
resulting `RuntimeError`, logs critically, sets the shutdown event, runs
the clean `_shutdown` sequence, and does not re-raise; moreover an invalid
phase value injected into the loop (with the cycle reset not due) passes
through every dispatch branch unchanged, so that exact outcome occurs. -/
theorem invalidPhaseCleanShutdown :
    (∀ (s : LoopState) (st : Stats) (inp : TickInputs),
      (tick s st inp).1.currentState ∉ VALID_STATES →
      runTick s st inp = .aborted ⟨true, true, true, false⟩) ∧
    (∀ (s : LoopState) (st : Stats) (inp : TickInputs),
      s.currentState ∉ VALID_STATES →
      elapsedCycleTime s.cycleStartTime inp.now < CYCLE_DURATION →
      tick s st inp = (s, st, ({} : TickEvents)) ∧
      runTick s st inp = .aborted ⟨true, true, true, false⟩) := by
  have hAbort : ∀ (s : LoopState) (st : Stats) (inp : TickInputs),
      (tick s st inp).1.currentState ∉ VALID_STATES →
      runTick s st inp = .aborted ⟨true, true, true, false⟩ := by
    intro s st inp h
    unfold runTick tickChecked
    rw [if_neg h]
  refine ⟨hAbort, ?_⟩
  intro s st inp hInvalid hElapsed
  have hne : ∀ x ∈ VALID_STATES, s.currentState ≠ x := by
    intro x hx heq
    exact hInvalid (heq ▸ hx)
  have hTick : tick s st inp = (s, st, ({} : TickEvents)) := by
    have hPre : preDispatchState s inp.now = s.currentState :=
      preDispatch_no_reset hElapsed
    have hEta : ({ s with currentState := preDispatchState s inp.now } : LoopState)
        = s := by
      rw [hPre]
    simp only [tick, hEta]
    rw [stepStartingCycle_skip inp.now (hne _ (by decide)),
      stepPodStart_skip inp.podStart {} (hne _ (by decide)),
      stepWaitingForIdle_skip inp.now (elapsedCycleTime s.cycleStartTime inp.now)
        inp.statusHttp {} (hne _ (by decide)),
      stepPipelineRun_skip inp.runHttp inp.nowInt st {} (hne _ (by decide)),
      stepUpdatingCounts_skip inp.now inp.counts {} (hne _ (by decide)),
      stepWaitingAfterFailure_skip (elapsedCycleTime s.cycleStartTime inp.now)
        (hne _ (by decide))]
  refine ⟨hTick, hAbort s st inp ?_⟩
  rw [hTick]
  exact hInvalid

/-- Claim C9, witness: an injected phase value "BOGUS" with the reset not
due survives dispatch unchanged and the loop converts the invalid-state
`RuntimeError` into a logged, shutdown-flagged, cleanly-shut-down, caught
termination. -/
theorem invalidPhaseCleanShutdown_witness :
    tick ⟨"BOGUS", 50, "p", "u", 0, 0⟩ {}
      ⟨100, 100, .raised, .networkError, .networkError, .raised⟩ =
      (⟨"BOGUS", 50, "p", "u", 0, 0⟩, {}, ({} : TickEvents)) ∧
    runTick ⟨"BOGUS", 50, "p", "u", 0, 0⟩ {}
      ⟨100, 100, .raised, .networkError, .networkError, .raised⟩ =
      .aborted ⟨true, true, true, false⟩ :=
  invalidPhaseCleanShutdown.2 ⟨"BOGUS", 50, "p", "u", 0, 0⟩ {}
    ⟨100, 100, .raised, .networkError, .networkError, .raised⟩
    (by decide)
    (by norm_num [elapsedCycleTime, CYCLE_DURATION])

/-! ## Claim C8 -/

theorem handleWaitingForIdle_timeout {now elapsed last : ℚ} {o : HttpOutcome}
    (h : elapsed ≥ STATUS_CHECK_TIMEOUT) :
    handleWaitingForIdle now elapsed last o =
      ⟨STATE_WAITING_AFTER_FAILURE, last, 1, 0⟩ := by
  unfold handleWaitingForIdle
  rw [if_pos h]

theorem handleWaitingForIdle_check {now elapsed last : ℚ} {o : HttpOutcome}
    (h1 : ¬ elapsed ≥ STATUS_CHECK_TIMEOUT)
    (h2 : now - last ≥ POD_STATUS_CHECK_INTERVAL) :
    handleWaitingForIdle now elapsed last o =
      if checkPodIdleStatus o then ⟨STATE_ATTEMPTING_PIPELINE_RUN, now, 0, 1⟩
      else ⟨STATE_WAITING_FOR_IDLE, now, 0, 1⟩ := by
  unfold handleWaitingForIdle
  rw [if_neg h1, if_pos h2]

theorem handleWaitingForIdle_wait {now elapsed last : ℚ} {o : HttpOutcome}
    (h1 : ¬ elapsed ≥ STATUS_CHECK_TIMEOUT)
    (h2 : ¬ now - last ≥ POD_STATUS_CHECK_INTERVAL) :
    handleWaitingForIdle now elapsed last o =
      ⟨STATE_WAITING_FOR_IDLE, last, 0, 0⟩ := by
  unfold handleWaitingForIdle
  rw [if_neg h1, if_neg h2]

theorem idleCheckTimes_head_sep :
    ∀ (ticks : List (ℚ × ℚ × HttpOutcome)) (last t : ℚ),
      (idleCheckTimes last ticks).head? = some t →
      POD_STATUS_CHECK_INTERVAL ≤ t - last := by
  intro ticks
  induction ticks with
  | nil =>
    intro last t h
    simp [idleCheckTimes] at h
  | cons tk rest ih =>
    intro last t h
    obtain ⟨now, elapsed, o⟩ := tk
    by_cases h1 : elapsed ≥ STATUS_CHECK_TIMEOUT
    · rw [show idleCheckTimes last ((now, elapsed, o) :: rest) = [] from by
        simp +decide [idleCheckTimes, handleWaitingForIdle_timeout h1,
          STATE_WAITING_AFTER_FAILURE, STATE_WAITING_FOR_IDLE]] at h
      simp at h
    · by_cases h2 : now - last ≥ POD_STATUS_CHECK_INTERVAL
      · cases hIdle : checkPodIdleStatus o
        · rw [show idleCheckTimes last ((now, elapsed, o) :: rest) =
              now :: idleCheckTimes now rest from by
            simp +decide [idleCheckTimes, handleWaitingForIdle_check h1 h2, hIdle,
              STATE_WAITING_FOR_IDLE]] at h
          rw [List.head?_cons, Option.some_inj] at h
          rw [h] at h2
          exact h2
        · rw [show idleCheckTimes last ((now, elapsed, o) :: rest) = [now] from by
            simp +decide [idleCheckTimes, handleWaitingForIdle_check h1 h2, hIdle,
              STATE_ATTEMPTING_PIPELINE_RUN, STATE_WAITING_FOR_IDLE]] at h
          rw [List.head?_cons, Option.some_inj] at h
          rw [h] at h2
          exact h2
      · rw [show idleCheckTimes last ((now, elapsed, o) :: rest) =
            idleCheckTimes last rest from by
          simp +decide [idleCheckTimes, handleWaitingForIdle_wait h1 h2,
            STATE_WAITING_FOR_IDLE]] at h
        exact ih last t h

theorem idleCheckTimes_chain :
    ∀ (ticks : List (ℚ × ℚ × HttpOutcome)) (last : ℚ),
      List.Chain' (fun a b => POD_STATUS_CHECK_INTERVAL ≤ b - a)
        (idleCheckTimes last ticks) := by
  intro ticks
  induction ticks with
  | nil =>
    intro last
    simp [idleCheckTimes]
  | cons tk rest ih =>
    intro last
    obtain ⟨now, elapsed, o⟩ := tk
    by_cases h1 : elapsed ≥ STATUS_CHECK_TIMEOUT
    · rw [show idleCheckTimes last ((now, elapsed, o) :: rest) = [] from by
        simp +decide [idleCheckTimes, handleWaitingForIdle_timeout h1,
          STATE_WAITING_AFTER_FAILURE, STATE_WAITING_FOR_IDLE]]
      exact List.chain'_nil
    · by_cases h2 : now - last ≥ POD_STATUS_CHECK_INTERVAL
      · cases hIdle : checkPodIdleStatus o
        · rw [show idleCheckTimes last ((now, elapsed, o) :: rest) =
              now :: idleCheckTimes now rest from by
            simp +decide [idleCheckTimes, handleWaitingForIdle_check h1 h2, hIdle,
              STATE_WAITING_FOR_IDLE]]
          rw [List.chain'_cons']
          exact ⟨fun b hb => idleCheckTimes_head_sep rest now b hb, ih now⟩
        · rw [show idleCheckTimes last ((now, elapsed, o) :: rest) = [now] from by
            simp +decide [idleCheckTimes, handleWaitingForIdle_check h1 h2, hIdle,
              STATE_ATTEMPTING_PIPELINE_RUN, STATE_WAITING_FOR_IDLE]]
          exact List.chain'_singleton now
      · rw [show idleCheckTimes last ((now, elapsed, o) :: rest) =
            idleCheckTimes last rest from by
          simp +decide [idleCheckTimes, handleWaitingForIdle_wait h1 h2,
            STATE_WAITING_FOR_IDLE]]
        exact ih last

/-- Claim C8 (confirmed): along any run of consecutive WAITING_FOR_IDLE
ticks — whatever the tick times, in particular when ticks come more often
than the idle-check interval — any two recorded `check_idle` invocation
times are separated by at least POD_STATUS_CHECK_INTERVAL, so the check
runs at most once per idle-check interval. -/
theorem idleChecksRateLimited (last : ℚ) (ticks : List (ℚ × ℚ × HttpOutcome)) :
    List.Pairwise (fun a b => POD_STATUS_CHECK_INTERVAL ≤ b - a)
      (idleCheckTimes last ticks) := by
  have hTrans : IsTrans ℚ (fun a b => POD_STATUS_CHECK_INTERVAL ≤ b - a) := by
    constructor
    intro a b c hab hbc
    have h0 : (0 : ℚ) ≤ POD_STATUS_CHECK_INTERVAL := by
      norm_num [POD_STATUS_CHECK_INTERVAL]
    have : POD_STATUS_CHECK_INTERVAL + POD_STATUS_CHECK_INTERVAL ≤ c - a := by
      have := add_le_add hab hbc
      linarith
    linarith
  exact List.chain'_iff_pairwise.mp (idleCheckTimes_chain ticks last)

/-! ## Claim C10 -/

theorem stepWaitingForIdle_podStartAttempts (s : LoopState) (now elapsed : ℚ)
    (o : HttpOutcome) (ev : TickEvents) :
    (stepWaitingForIdle s now elapsed o ev).2.podStartAttempts =
      ev.podStartAttempts := by
  unfold stepWaitingForIdle
  split <;> rfl

theorem stepPipelineRun_podStartAttempts (s : LoopState) (o : HttpOutcome)
    (nowInt : Int) (st : Stats) (ev : TickEvents) :
    (stepPipelineRun s o nowInt st ev).2.2.podStartAttempts =
      ev.podStartAttempts := by
  unfold stepPipelineRun
  split <;> rfl

theorem stepPipelineRun_idleChecks (s : LoopState) (o : HttpOutcome)
    (nowInt : Int) (st : Stats) (ev : TickEvents) :
    (stepPipelineRun s o nowInt st ev).2.2.idleChecks = ev.idleChecks := by
  unfold stepPipelineRun
  split <;> rfl

theorem stepUpdatingCounts_podStartAttempts (s : LoopState) (now : ℚ)
    (res : CountPodsResult) (ev : TickEvents) :
    (stepUpdatingCounts s now res ev).2.podStartAttempts = ev.podStartAttempts := by
  unfold stepUpdatingCounts
  split <;> rfl

theorem stepUpdatingCounts_idleChecks (s : LoopState) (now : ℚ)
    (res : CountPodsResult) (ev : TickEvents) :
    (stepUpdatingCounts s now res ev).2.idleChecks = ev.idleChecks := by
  unfold stepUpdatingCounts
  split <;> rfl

theorem stepUpdatingCounts_triggerAttempts (s : LoopState) (now : ℚ)
    (res : CountPodsResult) (ev : TickEvents) :
    (stepUpdatingCounts s now res ev).2.triggerAttempts = ev.triggerAttempts := by
  unfold stepUpdatingCounts
  split <;> rfl

/-- The loop state at the start of an hourly-reset tick used by the C10
counterexample: the previous cycle began at time 10 and the tick arrives at
time 3700, so the reset is due. -/
def resetTickStartState : LoopState :=
  ⟨STATE_UPDATING_COUNTS, 10, "p", "u", 3000, 3000⟩

/-- External-call results for the C10 counterexample tick: the pod start
succeeds, the pod reports idle, the run trigger would succeed, and the
counts call would succeed. -/
def resetTickInputs : TickInputs :=
  ⟨3700, 3700, .returned (some "abc"),
   .response 200 (.dict [("status", JVal.str "idle")]),
   .response 200 (.dict [("message", JVal.str "ok")]),
   .returned (some (1, 1))⟩

/-- Claim C10, counterexample: on an hourly-reset tick STARTING_CYCLE runs
and the pod start succeeds in that same tick, and the pod even reports
idle — yet the idle check is not performed in that tick (the
WAITING_FOR_IDLE handler sees the stale tick-top elapsed time of 3690 s,
which exceeds the 300 s idle-wait timeout, takes the timeout path,
terminates the freshly started pod once and ends the tick in
WAITING_AFTER_FAILURE).  So it is not true for every tick where
STARTING_CYCLE runs that a successful pod start is followed in the same
tick by the first idle check. -/
theorem hourlyResetTickSkipsIdleCheck :
    preDispatchState resetTickStartState resetTickInputs.now =
      STATE_STARTING_CYCLE ∧
    resetTickInputs.podStart = PodStartResult.returned (some "abc") ∧
    checkPodIdleStatus resetTickInputs.statusHttp = true ∧
    (tick resetTickStartState {} resetTickInputs).2.2 = ⟨1, 0, 0, 0, 1⟩ ∧
    (tick resetTickStartState {} resetTickInputs).1.currentState =
      STATE_WAITING_AFTER_FAILURE := by
  refine ⟨?_, rfl, by decide, ?_, ?_⟩ <;>
    norm_num +decide [tick, resetTickStartState, resetTickInputs, preDispatchState,
      elapsedCycleTime, CYCLE_DURATION, stepStartingCycle, stepPodStart,
      stepWaitingForIdle, stepPipelineRun, stepUpdatingCounts,
      stepWaitingAfterFailure, handleStartingCycle, handleAttemptingPodStart,
      handleWaitingForIdle, handleAttemptingPipelineRun, handleUpdatingCounts,
      handleWaitingAfterFailure, triggerPipelineRun,
      processTriggerPipelineRunResponse, raisesForStatus, checkPodIdleStatus,
      updatePodCounts, Stats.set_pipeline_last_run_time, POD_URL_TEMPLATE,
      List.lookup, STATUS_CHECK_TIMEOUT, POD_STATUS_CHECK_INTERVAL,
      COUNT_UPDATE_INTERVAL, STATE_STARTING_CYCLE, STATE_ATTEMPTING_POD_START,
      STATE_WAITING_FOR_IDLE, STATE_ATTEMPTING_PIPELINE_RUN, STATE_UPDATING_COUNTS,
      STATE_WAITING_AFTER_FAILURE]

/-- Claim C10, amended: the sequential dispatch does chain several phase
handlers into one tick.  In a tick where STARTING_CYCLE runs, the pod-start
attempt always happens in that same tick; provided the tick-top elapsed
cycle time is below the idle-wait timeout (true on the process's first
tick, where the cycle start is still unset, but not on an hourly-reset
tick) and the wall clock is at least the count-update interval, a
successful pod start is followed in the same tick by the first idle check,
an idle report by the pipeline-run trigger, and a successful trigger by the
first count-update attempt, with the tick ending in UPDATING_COUNTS. -/
theorem startingCycleSameTickChain (s : LoopState) (st : Stats) (inp : TickInputs)
    (hStart : preDispatchState s inp.now = STATE_STARTING_CYCLE)
    (hElapsed : elapsedCycleTime s.cycleStartTime inp.now < STATUS_CHECK_TIMEOUT)
    (hNow : COUNT_UPDATE_INTERVAL ≤ inp.now) :
    (tick s st inp).2.2.podStartAttempts = 1 ∧
    (∀ pid : String, inp.podStart = PodStartResult.returned (some pid) →
      (tick s st inp).2.2.idleChecks = 1 ∧
      (checkPodIdleStatus inp.statusHttp = true →
        (tick s st inp).2.2.triggerAttempts = 1 ∧
        ((triggerPipelineRun inp.runHttp inp.nowInt st).1 = true →
          (tick s st inp).2.2.countUpdateAttempts = 1 ∧
          (tick s st inp).1.currentState = STATE_UPDATING_COUNTS))) := by
  have hE' : ¬ elapsedCycleTime s.cycleStartTime inp.now ≥ STATUS_CHECK_TIMEOUT :=
    not_le.mpr hElapsed
  have hNow60 : (60 : ℚ) ≤ inp.now := by
    have h := hNow
    norm_num [COUNT_UPDATE_INTERVAL] at h
    exact h
  have h5 : inp.now - 0 ≥ POD_STATUS_CHECK_INTERVAL := by
    norm_num [POD_STATUS_CHECK_INTERVAL]
    linarith
  have h60 : inp.now - 0 ≥ COUNT_UPDATE_INTERVAL := by
    norm_num [COUNT_UPDATE_INTERVAL]
    linarith
  have h1 : stepStartingCycle
      { s with currentState := preDispatchState s inp.now } inp.now =
      handleStartingCycle inp.now := by
    unfold stepStartingCycle
    rw [if_pos]
    exact hStart
  constructor
  · simp only [tick]
    rw [h1, stepUpdatingCounts_podStartAttempts, stepPipelineRun_podStartAttempts,
      stepWaitingForIdle_podStartAttempts]
    unfold stepPodStart
    split
    · rfl
    · rename_i hcond
      exact absurd rfl hcond
  · intro pid hpid
    have h2 : stepPodStart (handleStartingCycle inp.now) inp.podStart {} =
        (⟨STATE_WAITING_FOR_IDLE, inp.now, pid, POD_URL_TEMPLATE pid, 0, 0⟩,
         ⟨1, 0, 0, 0, 0⟩) := by
      rw [hpid]
      unfold stepPodStart
      split
      · rfl
      · rename_i hcond
        exact absurd rfl hcond
    constructor
    · simp only [tick]
      rw [h1, h2, stepUpdatingCounts_idleChecks, stepPipelineRun_idleChecks]
      unfold stepWaitingForIdle
      split
      · dsimp only
        rw [handleWaitingForIdle_check hE' h5]
        cases hIdle : checkPodIdleStatus inp.statusHttp <;> simp [hIdle]
      · rename_i hcond
        exact absurd rfl hcond
    · intro hIdle
      have h3 : stepWaitingForIdle
          ⟨STATE_WAITING_FOR_IDLE, inp.now, pid, POD_URL_TEMPLATE pid, 0, 0⟩
          inp.now (elapsedCycleTime s.cycleStartTime inp.now) inp.statusHttp
          ⟨1, 0, 0, 0, 0⟩ =
          (⟨STATE_ATTEMPTING_PIPELINE_RUN, inp.now, pid, POD_URL_TEMPLATE pid,
            0, inp.now⟩, ⟨1, 1, 0, 0, 0⟩) := by
        unfold stepWaitingForIdle
        split
        · dsimp only
          rw [handleWaitingForIdle_check hE' h5, hIdle]
          rfl
        · rename_i hcond
          exact absurd rfl hcond
      constructor
      · simp only [tick]
        rw [h1, h2, h3, stepUpdatingCounts_triggerAttempts]
        unfold stepPipelineRun
        split
        · rfl
        · rename_i hcond
          exact absurd rfl hcond
      · intro hTrig
        rcases hr : triggerPipelineRun inp.runHttp inp.nowInt st with ⟨b, st1⟩
        rw [hr] at hTrig
        subst hTrig
        have h4 : stepPipelineRun
            ⟨STATE_ATTEMPTING_PIPELINE_RUN, inp.now, pid, POD_URL_TEMPLATE pid,
              0, inp.now⟩ inp.runHttp inp.nowInt st ⟨1, 1, 0, 0, 0⟩ =
            (⟨STATE_UPDATING_COUNTS, inp.now, pid, POD_URL_TEMPLATE pid,
              0, inp.now⟩, st1, ⟨1, 1, 1, 0, 0⟩) := by
          unfold stepPipelineRun
          split
          · dsimp only
            unfold handleAttemptingPipelineRun
            rw [hr]
            rfl
          · rename_i hcond
            exact absurd rfl hcond
        have h5c : handleUpdatingCounts inp.now (0 : ℚ) inp.counts =
            if updatePodCounts inp.counts then
              ⟨STATE_UPDATING_COUNTS, inp.now, 0, 1⟩
            else ⟨STATE_UPDATING_COUNTS, 0, 0, 1⟩ := by
          unfold handleUpdatingCounts
          rw [if_pos h60]
        constructor
        · simp only [tick]
          rw [h1, h2, h3, h4]
          unfold stepUpdatingCounts
          split
          · dsimp only
            rw [h5c]
            cases hU : updatePodCounts inp.counts <;> simp [hU]
          · rename_i hcond
            exact absurd rfl hcond
        · simp only [tick]
          rw [h1, h2, h3, h4]
          have h6 : (stepUpdatingCounts
              ⟨STATE_UPDATING_COUNTS, inp.now, pid, POD_URL_TEMPLATE pid,
                0, inp.now⟩ inp.now inp.counts ⟨1, 1, 1, 0, 0⟩).1.currentState =
              STATE_UPDATING_COUNTS := by
            unfold stepUpdatingCounts
            split
            · dsimp only
              exact handleUpdatingCounts_nextState inp.now _ inp.counts
            · rename_i hcond
              exact absurd rfl hcond
          rw [stepWaitingAfterFailure_skip _ (by rw [h6]; decide)]
          exact h6

/-- Concrete first-tick loop state for the C10 witness: the process has
just started, so the cycle start time is still the initial 0. -/
def firstTickStartState : LoopState :=
  ⟨STATE_STARTING_CYCLE, 0, "", "", 0, 0⟩

/-- External-call results for the C10 witness tick at wall-clock time
1000: successful pod start, idle pod, successful trigger, valid counts. -/
def firstTickInputs : TickInputs :=
  ⟨1000, 1000, .returned (some "abc"),
   .response 200 (.dict [("status", JVal.str "idle")]),
   .response 200 (.dict [("message", JVal.str "ok")]),
   .returned (some (1, 1))⟩

/-- Claim C10, witness: on the concrete first tick all four chained phase
handlers run — one pod-start attempt, one idle check, one trigger attempt
and one count-update attempt — and the tick ends in UPDATING_COUNTS. -/
theorem startingCycleSameTickChain_witness :
    (tick firstTickStartState {} firstTickInputs).2.2.podStartAttempts = 1 ∧
    (tick firstTickStartState {} firstTickInputs).2.2.idleChecks = 1 ∧
    (tick firstTickStartState {} firstTickInputs).2.2.triggerAttempts = 1 ∧
    (tick firstTickStartState {} firstTickInputs).2.2.countUpdateAttempts = 1 ∧
    (tick firstTickStartState {} firstTickInputs).1.currentState =
      STATE_UPDATING_COUNTS := by
  have h := startingCycleSameTickChain firstTickStartState {} firstTickInputs
    (by norm_num +decide [preDispatchState, firstTickStartState, firstTickInputs,
      elapsedCycleTime, CYCLE_DURATION])
    (by norm_num [elapsedCycleTime, firstTickStartState, firstTickInputs,
      STATUS_CHECK_TIMEOUT])
    (by norm_num [COUNT_UPDATE_INTERVAL, firstTickInputs])
  have hsucc := h.2 "abc" rfl
  have hidle := hsucc.2 (by decide)
  have htrig := hidle.2 (by decide)
  exact ⟨h.1, hsucc.1, hidle.1, htrig.1, htrig.2⟩

end TranscriptionPipelineManager
